import Mathlib

/-!
Shallow embedding of the Mind Mosaic server (the Express route handlers of
the repository's main server file) and proofs about its endpoints.

Conventions of the embedding:
- a MongoDB collection is a list of documents, in insertion order;
- `findOne` with an equality filter is `List.find?` on that list;
- asynchronous handlers are pure functions from the request data and the
  current collections to a response and the new collections;
- the jsonwebtoken library and the MongoDB query operators the handlers use
  are modelled by their documented semantics, stated at each definition.
-/

namespace MindMosaic

/-- Payload the login endpoint signs into a token: the user's id and email,
exactly the object passed to the sign call of the login handler. -/
structure JwtPayload where
  userId : Nat
  email : String
deriving Repr, DecidableEq

/-- Model of a signed JSON Web Token: the payload, the secret it was signed
with, and the expiry instant, namely the issue time plus the expiresIn
duration given at signing. -/
structure Token where
  payload : JwtPayload
  secret : String
  exp : Nat
deriving Repr, DecidableEq

/-- Model of the sign function of the jsonwebtoken library: it signs the
payload with the secret and stamps the expiry at the issue time `now` plus
the requested lifetime (in seconds). -/
def jwtSign (p : JwtPayload) (secret : String) (now lifetime : Nat) : Token :=
  ⟨p, secret, now + lifetime⟩

/-- Model of the verify function of the jsonwebtoken library: it returns the
decoded payload when the token was signed with the given secret and has not
expired at time `now`, and fails (throws, here `none`) otherwise. -/
def jwtVerify (t : Token) (secret : String) (now : Nat) : Option JwtPayload :=
  if t.secret = secret ∧ now < t.exp then some t.payload else none

/-- The verifyJWT middleware: with no token cookie it replies 403, with a
cookie that fails verification it replies 401, and otherwise it passes the
decoded payload to the next handler. An error value is the early response
status; an ok value means the chain continues. -/
def verifyJWT (cookie : Option Token) (secret : String) (now : Nat) :
    Except Nat JwtPayload :=
  match cookie with
  | none => Except.error 403
  | some t =>
    match jwtVerify t secret now with
    | none => Except.error 401
    | some p => Except.ok p

/-- A route whose handler chain is verifyJWT followed by a handler body:
the body runs only when the middleware passed, so the route's outcome is
either the middleware's error status or the body's response. -/
def protectedRoute {ρ : Type} (cookie : Option Token) (secret : String)
    (now : Nat) (handler : JwtPayload → ρ) : Except Nat ρ :=
  match verifyJWT cookie secret now with
  | Except.error s => Except.error s
  | Except.ok p => Except.ok (handler p)

/-- A document of the users collection, with the fields the handlers read. -/
structure User where
  _id : Nat
  email : String
  userName : String
  profileImage : String
deriving Repr, DecidableEq

/-- Response of POST /api/login: the status and, when one is set, the cookie
written by res.cookie, as a name and token pair. -/
structure LoginResult where
  status : Nat
  tokenCookie : Option (String × Token)
deriving Repr, DecidableEq

/-- Handler of POST /api/login: findOne on the users collection by the email
of the request body; 401 when no user matches, otherwise a token signed for
three hours (10800 seconds) is set as the cookie named "token" and the
status is 200. -/
def loginHandler (users : List User) (email : String) (secret : String)
    (now : Nat) : LoginResult :=
  match users.find? (fun u => u.email == email) with
  | none => ⟨401, none⟩
  | some user => ⟨200, some ("token", jwtSign ⟨user._id, user.email⟩ secret now 10800)⟩

/-- A document of the blogs collection, with the fields the handlers read. -/
structure Blog where
  _id : Nat
  title : String
  category : String
  publishedDateTime : Int
  longDescription : Option String
deriving Repr, DecidableEq

/-- A document of the comments collection, as sent in a request body: the
userId is the string of the body, which the handler passes to the ObjectId
constructor. The userName and userImage fields are optional: they are
present only when someone wrote them. -/
structure Comment where
  _id : Nat
  blogId : String
  userId : String
  text : String
  userName : Option String
  userImage : Option String
deriving Repr, DecidableEq

/-- A document of the wishlist collection, with the fields the handlers
read: the user and blog pair plus the category and title the search
endpoint filters on. -/
structure WishItem where
  _id : Nat
  userId : String
  blogId : String
  category : String
  title : String
deriving Repr, DecidableEq

/-- The four collections of the MindMosaic database. -/
structure DB where
  users : List User
  blogs : List Blog
  comments : List Comment
  wishlist : List WishItem
deriving Repr, DecidableEq

/-- Response of POST /api/logout: the status, the name of the cookie cleared
by res.clearCookie, and the database state after the handler ran. -/
structure LogoutResult where
  status : Nat
  clearedCookie : Option String
  db : DB
deriving Repr, DecidableEq

/-- Handler of POST /api/logout: it clears the cookie named "token" and
replies 200; it performs no database operation. -/
def logoutHandler (db : DB) : LogoutResult :=
  ⟨200, some "token", db⟩

/-- Descending order on an integer sort key: a document precedes another
when its key is at least the other's. -/
def keyGe {α : Type} (key : α → Int) (a b : α) : Prop := key b ≤ key a

instance {α : Type} (key : α → Int) : DecidableRel (keyGe key) :=
  fun a b => inferInstanceAs (Decidable (key b ≤ key a))

instance {α : Type} (key : α → Int) : IsTotal α (keyGe key) :=
  ⟨fun a b => le_total (key b) (key a)⟩

instance {α : Type} (key : α → Int) : IsTrans α (keyGe key) :=
  ⟨fun _ _ _ hab hbc => le_trans hbc hab⟩

/-- Model of a sort on a descending key (the sort call with the field set
to -1, and the comparator sort of the top endpoint): a rearrangement of the
list that is sorted by the key, nonincreasing. -/
def sortDescBy {α : Type} (key : α → Int) (l : List α) : List α :=
  List.insertionSort (keyGe key) l

theorem sortDescBy_sorted {α : Type} (key : α → Int) (l : List α) :
    List.Sorted (keyGe key) (sortDescBy key l) :=
  List.sorted_insertionSort (keyGe key) l

theorem mem_sortDescBy {α : Type} (key : α → Int) (l : List α) (x : α) :
    x ∈ sortDescBy key l ↔ x ∈ l :=
  (List.perm_insertionSort (keyGe key) l).mem_iff

/-- One pattern position of the partial model of the regex engine below: a
dot matches any character, any other pattern character matches itself
ignoring case. This covers only patterns whose sole metacharacter is the
dot; every theorem of this development relies on the model only where it
agrees with the engine, namely on metacharacter-free patterns (where the
engine's match is literal, see regexMatchI_eq_substringCI) and, in the C3
counterexample, at the concrete pattern of a single dot matched against a
one-letter title. -/
def regexCharMatches (p c : Char) : Bool := p = '.' || p.toLower = c.toLower

/-- Whether the pattern matches right at the start of the text, character by
character. -/
def regexMatchesHere : List Char → List Char → Bool
  | [], _ => true
  | _ :: _, [] => false
  | p :: ps, c :: cs => regexCharMatches p c && regexMatchesHere ps cs

/-- Model of the unanchored MongoDB regex search: the pattern matches the
text when it matches starting at some position of it. -/
def regexSearch (pat : List Char) : List Char → Bool
  | [] => regexMatchesHere pat []
  | c :: cs => regexMatchesHere pat (c :: cs) || regexSearch pat cs

/-- Partial model of the regex test the search handlers run on the title
field, with the i option: case-insensitive, unanchored, with the dot as
the only modelled metacharacter; see the caveat at regexCharMatches for
the fragment on which it is faithful to the engine. -/
def regexMatchI (pat s : String) : Bool := regexSearch pat.toList s.toList

/-- The whitespace set of the JS string trim method: the JS WhiteSpace
characters (tab, vertical tab, form feed, space, no-break space, the
Unicode space separators and the zero width no-break space) together with
the JS LineTerminator characters (line feed, carriage return, line
separator, paragraph separator). -/
def isJsWhitespace (c : Char) : Bool :=
  c = ' ' || c = '\t' || c = '\n' || c = '\r'
  || c = '\x0b' || c = '\x0c' || c = '\xa0'
  || c = '\u1680' || ('\u2000' ≤ c && c ≤ '\u200a')
  || c = '\u2028' || c = '\u2029'
  || c = '\u202f' || c = '\u205f' || c = '\u3000' || c = '\ufeff'

/-- Model of the JS string trim method: it removes leading and trailing JS
whitespace. -/
def jsTrim (s : String) : String :=
  ⟨((s.data.dropWhile isJsWhitespace).reverse.dropWhile
      isJsWhitespace).reverse⟩

/-- The filter object the two search handlers build from the optional
category and query parameters: a present and nonempty (JS truthy) category
adds an exact match on its trimmed value, and a present and nonempty query
adds a case-insensitive regex on the title with the trimmed value as the
pattern. -/
structure SearchFilter where
  category : Option String
  titleRegex : Option String
deriving Repr, DecidableEq

/-- Builds the filter of the blogs search and wishlist search handlers. A
parameter is none when absent from the query string and some of its raw
value when present. -/
def buildSearchFilter (category query : Option String) : SearchFilter where
  category :=
    match category with
    | some c => if c = "" then none else some (jsTrim c)
    | none => none
  titleRegex :=
    match query with
    | some q => if q = "" then none else some (jsTrim q)
    | none => none

/-- Whether a blog document satisfies the search filter. -/
def blogMatchesFilter (f : SearchFilter) (b : Blog) : Bool :=
  (match f.category with
    | none => true
    | some c => b.category == c)
  && (match f.titleRegex with
    | none => true
    | some pat => regexMatchI pat b.title)

/-- Handler of GET /api/blogs/search: find with the built filter, sorted by
descending publishedDateTime. -/
def blogsSearchHandler (blogs : List Blog) (category query : Option String) :
    List Blog :=
  sortDescBy (fun b => b.publishedDateTime)
    (blogs.filter (blogMatchesFilter (buildSearchFilter category query)))

/-- Handler of GET /api/blogs/recent: every blog, sorted by descending
publishedDateTime. -/
def recentBlogsHandler (blogs : List Blog) : List Blog :=
  sortDescBy (fun b => b.publishedDateTime) blogs

/-- The containment predicate of the spec's words, written for comparison
with the regex semantics the code actually uses: whether the needle occurs
in the hay as a case-insensitive literal substring, here checked at the
start of the text. -/
def substringCIHere : List Char → List Char → Bool
  | [], _ => true
  | _ :: _, [] => false
  | a :: as, b :: bs => a.toLower == b.toLower && substringCIHere as bs

/-- The containment predicate of the spec's words, at any position. -/
def substringCISearch (needle : List Char) : List Char → Bool
  | [] => substringCIHere needle []
  | c :: cs => substringCIHere needle (c :: cs) || substringCISearch needle cs

/-- Whether the needle is a case-insensitive substring of the hay, as the
spec's sentence about the search endpoint reads. -/
def substringCI (needle hay : String) : Bool :=
  substringCISearch needle.toList hay.toList

/-- The characters the regex engine treats specially: a pattern containing
none of these is matched as its literal text. -/
def isRegexMetaChar (c : Char) : Bool :=
  c = '\\' || c = '^' || c = '$' || c = '.' || c = '|' || c = '?'
  || c = '*' || c = '+' || c = '(' || c = ')' || c = '[' || c = ']'
  || c = '\x7b' || c = '\x7d'

/-- Whether the pattern is free of regex metacharacters: on such patterns
the engine's case-insensitive unanchored match is exactly case-insensitive
substring containment, and the model of this development provably agrees
with it (regexMatchI_eq_substringCI). -/
def regexLiteralPattern (s : String) : Bool :=
  s.data.all (fun c => !isRegexMetaChar c)

theorem regexMatchesHere_eq_literal (pat : List Char)
    (h : pat.all (fun c => !isRegexMetaChar c) = true) :
    ∀ s : List Char, regexMatchesHere pat s = substringCIHere pat s := by
  induction pat with
  | nil => intro s; cases s <;> rfl
  | cons p ps ih =>
    rw [List.all_cons, Bool.and_eq_true] at h
    obtain ⟨h1, h2⟩ := h
    have hdot : ¬p = '.' := by
      intro hEq
      rw [hEq] at h1
      exact absurd h1 (by decide)
    intro s
    cases s with
    | nil => rfl
    | cons c cs =>
      by_cases heq : p.toLower = c.toLower <;>
        simp [regexMatchesHere, substringCIHere, regexCharMatches, hdot,
          heq, ih h2]

theorem regexSearch_eq_literal (pat : List Char)
    (h : pat.all (fun c => !isRegexMetaChar c) = true) :
    ∀ s : List Char, regexSearch pat s = substringCISearch pat s := by
  intro s
  induction s with
  | nil => simp [regexSearch, substringCISearch,
      regexMatchesHere_eq_literal pat h]
  | cons c cs ih =>
    simp [regexSearch, substringCISearch,
      regexMatchesHere_eq_literal pat h, ih]

/-- On metacharacter-free patterns the partial regex model coincides with
case-insensitive substring containment, which is the engine's documented
behavior there: the theorems about the search filter rely on the model
only through this equation. -/
theorem regexMatchI_eq_substringCI (pat s : String)
    (h : regexLiteralPattern pat = true) :
    regexMatchI pat s = substringCI pat s :=
  regexSearch_eq_literal pat.data h s.data

/-- C1: for a request to a token-protected endpoint, a missing token cookie
yields status 403 with the handler body not executed; a cookie failing
verification yields 401 with the handler body not executed; a verifying
cookie makes the handler body run. -/
theorem C1_verifyJWT_gate {ρ : Type} (cookie : Option Token) (secret : String)
    (now : Nat) (handler : JwtPayload → ρ) :
    (cookie = none → protectedRoute cookie secret now handler = Except.error 403)
    ∧ (∀ t, cookie = some t → jwtVerify t secret now = none →
        protectedRoute cookie secret now handler = Except.error 401)
    ∧ (∀ t p, cookie = some t → jwtVerify t secret now = some p →
        protectedRoute cookie secret now handler = Except.ok (handler p)) := by
  refine ⟨?_, ?_, ?_⟩
  · rintro rfl
    rfl
  · rintro t rfl hv
    simp [protectedRoute, verifyJWT, hv]
  · rintro t p rfl hv
    simp [protectedRoute, verifyJWT, hv]

/-- Witness for C1 at concrete inputs: no cookie gives 403, a cookie signed
with the wrong secret gives 401, a cookie signed with the right secret and
unexpired runs the handler. -/
theorem C1_verifyJWT_gate_witness :
    @protectedRoute Nat none "s" 0 (fun _ => 7) = Except.error 403
    ∧ @protectedRoute Nat (some ⟨⟨1, "a"⟩, "wrong", 99⟩) "s" 0 (fun _ => 7)
        = Except.error 401
    ∧ @protectedRoute Nat (some ⟨⟨1, "a"⟩, "s", 99⟩) "s" 0 (fun _ => 7)
        = Except.ok 7 :=
  ⟨(C1_verifyJWT_gate none "s" 0 (fun _ => 7)).1 rfl,
   (C1_verifyJWT_gate (some ⟨⟨1, "a"⟩, "wrong", 99⟩) "s" 0 (fun _ => 7)).2.1
     ⟨⟨1, "a"⟩, "wrong", 99⟩ rfl (by decide),
   (C1_verifyJWT_gate (some ⟨⟨1, "a"⟩, "s", 99⟩) "s" 0 (fun _ => 7)).2.2
     ⟨⟨1, "a"⟩, "s", 99⟩ ⟨1, "a"⟩ rfl (by decide)⟩

/-- C2: POST /api/login with an email some user document carries replies 200
and sets a signed cookie named "token"; with an email no user document
carries it replies 401 and sets no cookie. -/
theorem C2_login (users : List User) (email secret : String) (now : Nat) :
    ((∃ u ∈ users, u.email = email) →
      (loginHandler users email secret now).status = 200
      ∧ ∃ u tok, u ∈ users ∧ u.email = email
        ∧ tok = jwtSign ⟨u._id, u.email⟩ secret now 10800
        ∧ (loginHandler users email secret now).tokenCookie = some ("token", tok))
    ∧ ((∀ u ∈ users, u.email ≠ email) →
      (loginHandler users email secret now).status = 401
      ∧ (loginHandler users email secret now).tokenCookie = none) := by
  constructor
  · rintro ⟨u, hu, he⟩
    rcases hfind : users.find? (fun v => v.email == email) with _ | w
    · exact absurd (List.find?_eq_none.mp hfind u hu) (by simp [he])
    · refine ⟨by simp [loginHandler, hfind], w, _, List.mem_of_find?_eq_some hfind,
        ?_, rfl, by simp [loginHandler, hfind]⟩
      have := List.find?_some hfind
      simpa using this
  · intro hall
    rcases hfind : users.find? (fun v => v.email == email) with _ | w
    · exact ⟨by simp [loginHandler, hfind], by simp [loginHandler, hfind]⟩
    · have hw := List.mem_of_find?_eq_some hfind
      have := List.find?_some hfind
      exact absurd (by simpa using this) (hall w hw)

/-- Witness for C2 at concrete inputs: a one-user collection, one login with
the stored email and one with an unknown email. -/
theorem C2_login_witness :
    ((loginHandler [⟨1, "a@b", "A", "img"⟩] "a@b" "s" 5).status = 200
      ∧ ∃ u tok, u ∈ [(⟨1, "a@b", "A", "img"⟩ : User)] ∧ u.email = "a@b"
        ∧ tok = jwtSign ⟨u._id, u.email⟩ "s" 5 10800
        ∧ (loginHandler [⟨1, "a@b", "A", "img"⟩] "a@b" "s" 5).tokenCookie
            = some ("token", tok))
    ∧ ((loginHandler [⟨1, "a@b", "A", "img"⟩] "zz" "s" 5).status = 401
      ∧ (loginHandler [⟨1, "a@b", "A", "img"⟩] "zz" "s" 5).tokenCookie = none) :=
  ⟨(C2_login [⟨1, "a@b", "A", "img"⟩] "a@b" "s" 5).1
     ⟨⟨1, "a@b", "A", "img"⟩, by simp, rfl⟩,
   (C2_login [⟨1, "a@b", "A", "img"⟩] "zz" "s" 5).2 (by decide)⟩

/-- C7: POST /api/logout replies 200 and clears the cookie named "token"
while every collection is unchanged; verification does not consult the
database, so a token that verifies at some instant still verifies after a
logout and still runs the body of a protected route. -/
theorem C7_logout_frame (db : DB) (tok : Token) (secret : String) (now : Nat)
    {ρ : Type} (handler : JwtPayload → ρ) :
    (logoutHandler db).status = 200
    ∧ (logoutHandler db).clearedCookie = some "token"
    ∧ (logoutHandler db).db.users = db.users
    ∧ (logoutHandler db).db.blogs = db.blogs
    ∧ (logoutHandler db).db.comments = db.comments
    ∧ (logoutHandler db).db.wishlist = db.wishlist
    ∧ (∀ p, jwtVerify tok secret now = some p →
        protectedRoute (some tok) ((logoutHandler db).db, secret).2 now handler
          = Except.ok (handler p)) := by
  refine ⟨rfl, rfl, rfl, rfl, rfl, rfl, ?_⟩
  intro p hv
  simp [protectedRoute, verifyJWT, hv]

/-- Witness for C7 at concrete inputs: a logout over a one-user database,
and a token that verified before the logout still runs a protected body. -/
theorem C7_logout_frame_witness :
    (logoutHandler ⟨[⟨1, "a@b", "A", "img"⟩], [], [], []⟩).status = 200
    ∧ (logoutHandler ⟨[⟨1, "a@b", "A", "img"⟩], [], [], []⟩).clearedCookie
        = some "token"
    ∧ (logoutHandler ⟨[⟨1, "a@b", "A", "img"⟩], [], [], []⟩).db.users
        = [⟨1, "a@b", "A", "img"⟩]
    ∧ @protectedRoute Nat (some ⟨⟨1, "a@b"⟩, "s", 9⟩) "s" 0 (fun _ => 7)
        = Except.ok 7 :=
  have h := C7_logout_frame ⟨[⟨1, "a@b", "A", "img"⟩], [], [], []⟩
    ⟨⟨1, "a@b"⟩, "s", 9⟩ "s" 0 (fun _ => 7)
  ⟨h.1, h.2.1, h.2.2.1, h.2.2.2.2.2.2 ⟨1, "a@b"⟩ (by decide)⟩

/-- Model of the JS split on a single space: the pieces of the string
between the spaces, empty pieces kept, as a recursion over the characters
with an accumulator for the piece being read. -/
def jsSplitSpaceAux : List Char → List Char → List String
  | [], acc => [⟨acc.reverse⟩]
  | c :: cs, acc =>
    if c = ' ' then ⟨acc.reverse⟩ :: jsSplitSpaceAux cs []
    else jsSplitSpaceAux cs (c :: acc)

/-- Model of the JS split call on one space the top endpoint runs. -/
def jsSplitSpace (s : String) : List String :=
  jsSplitSpaceAux s.data []

/-- The word count the top endpoint computes for a blog: the length of the
split of the long description on single spaces; a missing or empty (falsy)
long description counts zero. -/
def blogWordCount (b : Blog) : Nat :=
  match b.longDescription with
  | none => 0
  | some s => if s = "" then 0 else (jsSplitSpace s).length

/-- Model of the JS Array slice call with start index 0: a nonnegative end
index takes that many elements from the front, a negative end index drops
that many elements from the back. -/
def jsSliceTo {α : Type} (l : List α) (stop : Int) : List α :=
  if stop < 0 then l.take (((l.length : Int) + stop).toNat)
  else l.take stop.toNat

/-- Handler of GET /api/blogs/top/:limit with a numeric limit: every blog,
sorted by descending word count of the long description, then sliced from 0
to the limit. -/
def topBlogsHandler (blogs : List Blog) (limit : Int) : List Blog :=
  jsSliceTo (sortDescBy (fun b => (blogWordCount b : Int)) blogs) limit

/-- An update document for a blog, as the body of the PUT endpoint: each
field is present or absent, and the set operator overwrites exactly the
present ones. The id field is not part of an update body. -/
structure BlogUpdate where
  title : Option String
  category : Option String
  publishedDateTime : Option Int
  longDescription : Option (Option String)
deriving Repr, DecidableEq

/-- Model of the MongoDB set operator on a blog document: each field of the
update document replaces the stored field. -/
def applySet (b : Blog) (u : BlogUpdate) : Blog :=
  ⟨b._id, u.title.getD b.title, u.category.getD b.category,
    u.publishedDateTime.getD b.publishedDateTime,
    u.longDescription.getD b.longDescription⟩

/-- Model of updateOne with an id filter: the first document whose id
matches is updated in place; the first component is the matchedCount. -/
def updateOneById (id : Nat) (u : BlogUpdate) : List Blog → Nat × List Blog
  | [] => (0, [])
  | b :: bs =>
    if b._id == id then (1, applySet b u :: bs)
    else
      let r := updateOneById id u bs
      (r.1, b :: r.2)

/-- Model of deleteOne with an id filter: the first document whose id
matches is removed; the first component is the deletedCount. -/
def deleteOneById (id : Nat) : List Blog → Nat × List Blog
  | [] => (0, [])
  | b :: bs =>
    if b._id == id then (1, bs)
    else
      let r := deleteOneById id bs
      (r.1, b :: r.2)

/-- Response of the PUT and DELETE blog endpoints: the status, the matched
or deleted count of the returned write result, and the collection after the
operation. -/
structure WriteResult where
  status : Nat
  count : Nat
  blogs : List Blog
deriving Repr, DecidableEq

/-- Handler of PUT /api/blogs/:id (after verifyJWT): updateOne by id,
always replying 200 with the update result. -/
def putBlogHandler (blogs : List Blog) (id : Nat) (u : BlogUpdate) :
    WriteResult :=
  let r := updateOneById id u blogs
  ⟨200, r.1, r.2⟩

/-- Handler of DELETE /api/blogs/:id (after verifyJWT): deleteOne by id,
always replying 200 with the delete result. -/
def deleteBlogHandler (blogs : List Blog) (id : Nat) : WriteResult :=
  let r := deleteOneById id blogs
  ⟨200, r.1, r.2⟩

/-- The findOne check of the wishlist post handler: whether the collection
has an item carrying the given user and blog pair. -/
def wishlistHasPair (wl : List WishItem) (userId blogId : String) : Bool :=
  (wl.find? (fun i => i.userId == userId && i.blogId == blogId)).isSome

/-- Response of POST /api/wishlist: the status and the collection after the
handler ran. -/
structure WishlistPostResult where
  status : Nat
  wishlist : List WishItem
deriving Repr, DecidableEq

/-- Handler of POST /api/wishlist (after verifyJWT): findOne on the user
and blog pair of the body; when an item exists the reply is 400 and nothing
is written, otherwise the item is inserted and the reply is 201. -/
def postWishlistHandler (wl : List WishItem) (newItem : WishItem) :
    WishlistPostResult :=
  if wishlistHasPair wl newItem.userId newItem.blogId then ⟨400, wl⟩
  else ⟨201, wl ++ [newItem]⟩

/-- Two interleaved runs of the wishlist post handler in which both findOne
reads happen before either insert: each request decides from the initial
collection, then the inserts are applied in order. The components are the
status of each request and the final collection. -/
def interleavedWishlistPosts (wl : List WishItem) (a b : WishItem) :
    Nat × Nat × List WishItem :=
  let checkA := wishlistHasPair wl a.userId a.blogId
  let checkB := wishlistHasPair wl b.userId b.blogId
  let afterA := if checkA then wl else wl ++ [a]
  let afterB := if checkB then afterA else afterA ++ [b]
  (if checkA then 400 else 201, if checkB then 400 else 201, afterB)

/-- The value of a hexadecimal digit character, none for any other
character. -/
def hexDigitVal (c : Char) : Option Nat :=
  if '0' ≤ c ∧ c ≤ '9' then some (c.toNat - '0'.toNat)
  else if 'a' ≤ c ∧ c ≤ 'f' then some (c.toNat - 'a'.toNat + 10)
  else if 'A' ≤ c ∧ c ≤ 'F' then some (c.toNat - 'A'.toNat + 10)
  else none

/-- The number a list of hexadecimal digits denotes, none when some
character is not a hexadecimal digit. -/
def hexValAux : List Char → Nat → Option Nat
  | [], acc => some acc
  | c :: cs, acc =>
    match hexDigitVal c with
    | none => none
    | some v => hexValAux cs (acc * 16 + v)

/-- Model of the ObjectId constructor of the MongoDB driver on a string
argument: it accepts exactly a 24 character hexadecimal string, decoding
it to the 12 byte id (represented here by the number the digits denote, so
two id strings name the same id exactly when their digits agree ignoring
case), and throws on any other string. -/
def parseObjectId (s : String) : Option Nat :=
  if s.length = 24 then hexValAux s.data 0 else none

/-- Handler of POST /api/comments (after verifyJWT): the body's userId is
passed to the ObjectId constructor, whose throw on a malformed string
fails the request before any database operation, so nothing is stored (the
none result); otherwise findOne on the users collection by that id: when a
user is found the comment is stored with its userName and userImage fields
overwritten by the user's userName and profileImage, otherwise the comment
is stored as sent. -/
def postCommentHandler (users : List User) (comments : List Comment)
    (newComment : Comment) : Option (List Comment) :=
  match parseObjectId newComment.userId with
  | none => none
  | some oid =>
    match users.find? (fun u => u._id == oid) with
    | some user => some (comments ++
        [{ newComment with
            userName := some user.userName,
            userImage := some user.profileImage }])
    | none => some (comments ++ [newComment])

/-- Body of the wishlist search response: an array of items or a message
object, which are distinct shapes. -/
inductive WishlistSearchBody where
  | items : List WishItem → WishlistSearchBody
  | message : String → WishlistSearchBody
deriving Repr, DecidableEq

/-- Whether a wishlist document satisfies the wishlist search filter: its
userId field must equal the userId parameter, and the optional category and
query parameters filter exactly as in the blogs search. -/
def wishItemMatches (userId : String) (f : SearchFilter) (w : WishItem) :
    Bool :=
  w.userId == userId
  && (match f.category with
    | none => true
    | some c => w.category == c)
  && (match f.titleRegex with
    | none => true
    | some pat => regexMatchI pat w.title)

/-- Handler of GET /api/wishlist/search (after verifyJWT): find with the
built filter; an empty result is reported as a 200 carrying a message
object, a nonempty one as a 200 carrying the array of items. -/
def wishlistSearchHandler (wl : List WishItem) (userId : String)
    (category query : Option String) : Nat × WishlistSearchBody :=
  let found :=
    wl.filter (wishItemMatches userId (buildSearchFilter category query))
  if found.isEmpty then
    (200, WishlistSearchBody.message "No matching items found.")
  else (200, WishlistSearchBody.items found)

/-- C4: the lists returned by the blogs search endpoint and the recent
endpoint are sorted in nonincreasing order of publishedDateTime, most
recent first. -/
theorem C4_sorted_by_published_desc (blogs : List Blog)
    (category query : Option String) :
    List.Sorted (fun (a : Blog) (b : Blog) => b.publishedDateTime ≤ a.publishedDateTime)
      (blogsSearchHandler blogs category query)
    ∧ List.Sorted (fun (a : Blog) (b : Blog) => b.publishedDateTime ≤ a.publishedDateTime)
      (recentBlogsHandler blogs) :=
  ⟨sortDescBy_sorted (fun b : Blog => b.publishedDateTime) _,
   sortDescBy_sorted (fun b : Blog => b.publishedDateTime) _⟩

/-- Counterexample to C3 as stated. First part: with the category parameter
present but equal to the empty string (a falsy value), the handler applies
no category filter, so a blog of category "tech" is returned although its
category differs from the trimmed parameter value, the empty string.
Second part: the query parameter is used as a regex pattern, not a literal:
with the query "." the handler returns a blog titled "x" although "." is
not a case-insensitive substring of "x". -/
theorem C3_counterexample :
    (blogsSearchHandler [⟨1, "x", "tech", 0, none⟩] (some "") none
        = [⟨1, "x", "tech", 0, none⟩]
      ∧ jsTrim "" ≠ "tech")
    ∧ (blogsSearchHandler [⟨1, "x", "tech", 0, none⟩] none (some ".")
        = [⟨1, "x", "tech", 0, none⟩]
      ∧ substringCI (jsTrim ".") "x" = false) := by
  decide

/-- C3 amended: when the category parameter is present and nonempty, the
response holds exactly the blogs of the collection whose category equals
the trimmed value and which pass the other filter; the query parameter is
applied to the title as a case-insensitive regex rather than as a literal,
and when every present query's trimmed value is free of regex
metacharacters — where the engine's match is case-insensitive substring
containment, with which the model provably agrees — the response holds
exactly the blogs whose title contains the trimmed value as a
case-insensitive substring and which pass the other filter; an absent or
empty parameter restricts nothing. -/
theorem C3_search_filter (blogs : List Blog) (category query : Option String)
    (b : Blog)
    (hlit : ∀ q, query = some q → regexLiteralPattern (jsTrim q) = true) :
    b ∈ blogsSearchHandler blogs category query ↔
      b ∈ blogs
      ∧ (∀ c, category = some c → c ≠ "" → b.category = jsTrim c)
      ∧ (∀ q, query = some q → q ≠ "" → substringCI (jsTrim q) b.title = true) := by
  rw [blogsSearchHandler, mem_sortDescBy, List.mem_filter]
  refine and_congr_right fun _ => ?_
  cases category with
  | none =>
    cases query with
    | none => simp [blogMatchesFilter, buildSearchFilter]
    | some q =>
      by_cases hq : q = "" <;>
        simp [blogMatchesFilter, buildSearchFilter, hq,
          regexMatchI_eq_substringCI (jsTrim q) b.title (hlit q rfl)]
  | some c =>
    cases query with
    | none =>
      by_cases hc : c = "" <;>
        simp [blogMatchesFilter, buildSearchFilter, hc]
    | some q =>
      by_cases hc : c = "" <;> by_cases hq : q = "" <;>
        simp [blogMatchesFilter, buildSearchFilter, hc, hq, and_comm,
          regexMatchI_eq_substringCI (jsTrim q) b.title (hlit q rfl)]

/-- Witness for C3 at concrete inputs: both parameters present and
metacharacter-free over a one-blog collection; the membership equivalence
is produced by the theorem itself. -/
theorem C3_search_filter_witness :
    (⟨1, "Alpha", "tech", 0, none⟩ : Blog) ∈
        blogsSearchHandler [⟨1, "Alpha", "tech", 0, none⟩]
          (some "tech") (some "alp") ↔
      (⟨1, "Alpha", "tech", 0, none⟩ : Blog)
          ∈ [(⟨1, "Alpha", "tech", 0, none⟩ : Blog)]
      ∧ (∀ c, (some "tech" : Option String) = some c → c ≠ "" →
          ("tech" : String) = jsTrim c)
      ∧ (∀ q, (some "alp" : Option String) = some q → q ≠ "" →
          substringCI (jsTrim q) "Alpha" = true) :=
  C3_search_filter [⟨1, "Alpha", "tech", 0, none⟩] (some "tech") (some "alp")
    ⟨1, "Alpha", "tech", 0, none⟩
    (by
      intro q hq
      rw [Option.some.injEq] at hq
      subst hq
      decide)

theorem wishlistHasPair_iff (wl : List WishItem) (userId blogId : String) :
    wishlistHasPair wl userId blogId = true ↔
      ∃ i ∈ wl, i.userId = userId ∧ i.blogId = blogId := by
  simp [wishlistHasPair, List.find?_isSome]

/-- C5: the wishlist post handler replies 400 leaving the collection
unchanged when an item with the body's user and blog pair exists, and
inserts the item replying 201 otherwise; and since uniqueness rests only on
the pre-insert lookup, two interleaved posts of the same absent pair both
reply 201 and leave two items with that pair in the collection. -/
theorem C5_wishlist_duplicate (wl : List WishItem) (item other : WishItem) :
    ((∃ i ∈ wl, i.userId = item.userId ∧ i.blogId = item.blogId) →
      postWishlistHandler wl item = ⟨400, wl⟩)
    ∧ ((∀ i ∈ wl, ¬(i.userId = item.userId ∧ i.blogId = item.blogId)) →
      postWishlistHandler wl item = ⟨201, wl ++ [item]⟩)
    ∧ ((∀ i ∈ wl, ¬(i.userId = item.userId ∧ i.blogId = item.blogId)) →
      other.userId = item.userId → other.blogId = item.blogId →
      (interleavedWishlistPosts wl item other).1 = 201
      ∧ (interleavedWishlistPosts wl item other).2.1 = 201
      ∧ ((interleavedWishlistPosts wl item other).2.2.filter
            (fun i => i.userId == item.userId && i.blogId == item.blogId)).length
          = (wl.filter
            (fun i => i.userId == item.userId && i.blogId == item.blogId)).length
            + 2) := by
  refine ⟨?_, ?_, ?_⟩
  · intro hex
    have hA := (wishlistHasPair_iff wl item.userId item.blogId).mpr hex
    simp [postWishlistHandler, hA]
  · intro hall
    have hA : wishlistHasPair wl item.userId item.blogId = false := by
      rw [Bool.eq_false_iff]
      intro hw
      obtain ⟨i, hi, hp⟩ := (wishlistHasPair_iff wl item.userId item.blogId).mp hw
      exact hall i hi hp
    simp [postWishlistHandler, hA]
  · intro hall hu hb
    have hA : wishlistHasPair wl item.userId item.blogId = false := by
      rw [Bool.eq_false_iff]
      intro hw
      obtain ⟨i, hi, hp⟩ := (wishlistHasPair_iff wl item.userId item.blogId).mp hw
      exact hall i hi hp
    have hB : wishlistHasPair wl other.userId other.blogId = false := by
      rw [hu, hb]; exact hA
    refine ⟨by simp [interleavedWishlistPosts, hA, hB], by simp [interleavedWishlistPosts, hA, hB], ?_⟩
    simp [interleavedWishlistPosts, hA, hB, List.filter_append, hu, hb]

/-- Witness for C5 at concrete inputs: a duplicate pair is refused with
400, a fresh pair is inserted with 201, and two interleaved posts of the
same fresh pair both reply 201 and leave two copies of the pair. -/
theorem C5_wishlist_duplicate_witness :
    postWishlistHandler [⟨1, "u", "b", "c", "t"⟩] ⟨2, "u", "b", "c2", "t2"⟩
        = ⟨400, [⟨1, "u", "b", "c", "t"⟩]⟩
    ∧ postWishlistHandler [] ⟨1, "u", "b", "c", "t"⟩
        = ⟨201, [⟨1, "u", "b", "c", "t"⟩]⟩
    ∧ (interleavedWishlistPosts [] ⟨1, "u", "b", "c", "t"⟩
          ⟨2, "u", "b", "c", "t"⟩).1 = 201
    ∧ (interleavedWishlistPosts [] ⟨1, "u", "b", "c", "t"⟩
          ⟨2, "u", "b", "c", "t"⟩).2.1 = 201
    ∧ ((interleavedWishlistPosts [] ⟨1, "u", "b", "c", "t"⟩
          ⟨2, "u", "b", "c", "t"⟩).2.2.filter
            (fun i => i.userId == "u" && i.blogId == "b")).length = 2 :=
  have h3 := (C5_wishlist_duplicate [] ⟨1, "u", "b", "c", "t"⟩
      ⟨2, "u", "b", "c", "t"⟩).2.2 (by simp) rfl rfl
  ⟨(C5_wishlist_duplicate [⟨1, "u", "b", "c", "t"⟩] ⟨2, "u", "b", "c2", "t2"⟩
      ⟨2, "u", "b", "c", "t"⟩).1 ⟨⟨1, "u", "b", "c", "t"⟩, by simp, rfl, rfl⟩,
   (C5_wishlist_duplicate [] ⟨1, "u", "b", "c", "t"⟩
      ⟨2, "u", "b", "c", "t"⟩).2.1 (by simp),
   h3.1, h3.2.1, h3.2.2⟩

/-- Counterexample to C6 as stated: the body's userId "abc" is not a
well-formed ObjectId string, so the constructor throws before the user
lookup; no user document matches that userId, yet the comment is not
stored as sent: nothing is stored at all. -/
theorem C6_counterexample :
    (∀ u ∈ [(⟨1, "a@b", "A", "img"⟩ : User)], parseObjectId "abc" ≠ some u._id)
    ∧ postCommentHandler [⟨1, "a@b", "A", "img"⟩] []
        ⟨9, "blog1", "abc", "hi", none, none⟩ = none
    ∧ postCommentHandler [⟨1, "a@b", "A", "img"⟩] []
        ⟨9, "blog1", "abc", "hi", none, none⟩
      ≠ some [⟨9, "blog1", "abc", "hi", none, none⟩] := by
  decide

/-- C6 amended: when the body's userId is a well-formed ObjectId string,
the comments post handler stores the comment enriched with the userName
and profileImage of the first user document whose id matches when one
exists and stores it as sent when none does; when the userId is malformed
the ObjectId constructor throws and no comment is stored. -/
theorem C6_comment_enrichment (users : List User) (comments : List Comment)
    (nc : Comment) :
    (∀ oid, parseObjectId nc.userId = some oid →
      ((∃ u ∈ users, u._id = oid) →
        ∃ u, users.find? (fun v => v._id == oid) = some u
          ∧ u ∈ users ∧ u._id = oid
          ∧ postCommentHandler users comments nc
            = some (comments ++ [{ nc with
                userName := some u.userName,
                userImage := some u.profileImage }]))
      ∧ ((∀ u ∈ users, u._id ≠ oid) →
        postCommentHandler users comments nc = some (comments ++ [nc])))
    ∧ (parseObjectId nc.userId = none →
      postCommentHandler users comments nc = none) := by
  constructor
  · intro oid hoid
    constructor
    · rintro ⟨u, hu, he⟩
      rcases hfind : users.find? (fun v => v._id == oid) with _ | w
      · exact absurd (List.find?_eq_none.mp hfind u hu) (by simp [he])
      · refine ⟨w, hfind, List.mem_of_find?_eq_some hfind, ?_, ?_⟩
        · have := List.find?_some hfind
          simpa using this
        · simp [postCommentHandler, hoid, hfind]
    · intro hall
      rcases hfind : users.find? (fun v => v._id == oid) with _ | w
      · simp [postCommentHandler, hoid, hfind]
      · have hw := List.mem_of_find?_eq_some hfind
        have := List.find?_some hfind
        exact absurd (by simpa using this) (hall w hw)
  · intro hnone
    simp [postCommentHandler, hnone]

/-- Witness for C6 at concrete inputs: a well-formed userId naming user 1
stores the enriched comment, a well-formed userId naming nobody stores the
comment as sent, and a malformed userId stores nothing. -/
theorem C6_comment_enrichment_witness :
    (∃ u, [(⟨1, "a@b", "A", "img"⟩ : User)].find? (fun v => v._id == 1)
          = some u
      ∧ u ∈ [(⟨1, "a@b", "A", "img"⟩ : User)] ∧ u._id = 1
      ∧ postCommentHandler [⟨1, "a@b", "A", "img"⟩] []
          ⟨9, "blog1", "000000000000000000000001", "hi", none, none⟩
        = some ([] ++ [{ (⟨9, "blog1", "000000000000000000000001", "hi",
            none, none⟩ : Comment) with
            userName := some u.userName,
            userImage := some u.profileImage }]))
    ∧ postCommentHandler [⟨1, "a@b", "A", "img"⟩] []
        ⟨9, "blog1", "000000000000000000000002", "hi", none, none⟩
      = some ([] ++ [⟨9, "blog1", "000000000000000000000002", "hi",
          none, none⟩])
    ∧ postCommentHandler [⟨1, "a@b", "A", "img"⟩] []
        ⟨9, "blog1", "abc", "hi", none, none⟩ = none :=
  ⟨((C6_comment_enrichment [⟨1, "a@b", "A", "img"⟩] []
      ⟨9, "blog1", "000000000000000000000001", "hi", none, none⟩).1 1
      (by decide)).1 ⟨⟨1, "a@b", "A", "img"⟩, by simp, rfl⟩,
   ((C6_comment_enrichment [⟨1, "a@b", "A", "img"⟩] []
      ⟨9, "blog1", "000000000000000000000002", "hi", none, none⟩).1 2
      (by decide)).2 (by decide),
   (C6_comment_enrichment [⟨1, "a@b", "A", "img"⟩] []
      ⟨9, "blog1", "abc", "hi", none, none⟩).2 (by decide)⟩

/-- Counterexample to C8 as stated: the limit parameter of the top endpoint
can be a negative number, and a negative end index of the JS slice counts
from the end of the array, so with limit -1 and two stored blogs the
response holds one blog, which is not at most -1 many. -/
theorem C8_counterexample :
    topBlogsHandler [⟨1, "t", "c", 0, some "a b"⟩, ⟨2, "u", "c", 0, some "x"⟩]
        (-1) = [⟨1, "t", "c", 0, some "a b"⟩]
    ∧ ¬ (((topBlogsHandler
          [⟨1, "t", "c", 0, some "a b"⟩, ⟨2, "u", "c", 0, some "x"⟩]
          (-1)).length : Int) ≤ -1) := by
  decide

/-- C8 amended: for a nonnegative numeric limit the top endpoint returns at
most that many blogs, ordered by nonincreasing word count of the long
description (zero for a missing or empty one). -/
theorem C8_top_blogs (blogs : List Blog) (limit : Int) (h : 0 ≤ limit) :
    ((topBlogsHandler blogs limit).length : Int) ≤ limit
    ∧ List.Sorted (fun (a : Blog) (b : Blog) => blogWordCount b ≤ blogWordCount a)
      (topBlogsHandler blogs limit) := by
  have hsub : List.Sublist (topBlogsHandler blogs limit)
      (sortDescBy (fun b => (blogWordCount b : Int)) blogs) := by
    unfold topBlogsHandler jsSliceTo
    split <;> exact List.take_sublist _ _
  constructor
  · unfold topBlogsHandler jsSliceTo
    rw [if_neg (not_lt.mpr h)]
    calc ((List.take limit.toNat
            (sortDescBy (fun b => (blogWordCount b : Int)) blogs)).length : Int)
        ≤ (limit.toNat : Int) := by
          exact_mod_cast List.length_take_le limit.toNat _
      _ = limit := Int.toNat_of_nonneg h
  · have hs := sortDescBy_sorted (fun b : Blog => (blogWordCount b : Int)) blogs
    exact (hs.sublist hsub).imp (fun hab => Int.ofNat_le.mp hab)

/-- Witness for C8 at concrete inputs: with limit 1 over two stored blogs
the response holds at most one blog and is sorted by word count. -/
theorem C8_top_blogs_witness :
    ((topBlogsHandler [⟨1, "t", "c", 0, some "a b"⟩, ⟨2, "u", "c", 0, some "x"⟩]
        1).length : Int) ≤ 1
    ∧ List.Sorted (fun (a : Blog) (b : Blog) => blogWordCount b ≤ blogWordCount a)
      (topBlogsHandler [⟨1, "t", "c", 0, some "a b"⟩, ⟨2, "u", "c", 0, some "x"⟩]
        1) :=
  C8_top_blogs [⟨1, "t", "c", 0, some "a b"⟩, ⟨2, "u", "c", 0, some "x"⟩] 1
    (by decide)

theorem updateOneById_not_found (id : Nat) (u : BlogUpdate)
    (blogs : List Blog) (h : ∀ b ∈ blogs, b._id ≠ id) :
    updateOneById id u blogs = (0, blogs) := by
  induction blogs with
  | nil => rfl
  | cons b bs ih =>
    have hb : (b._id == id) = false := by
      simpa using h b (List.mem_cons_self b bs)
    simp [updateOneById, hb, ih (fun x hx => h x (List.mem_cons_of_mem b hx))]

theorem deleteOneById_not_found (id : Nat) (blogs : List Blog)
    (h : ∀ b ∈ blogs, b._id ≠ id) :
    deleteOneById id blogs = (0, blogs) := by
  induction blogs with
  | nil => rfl
  | cons b bs ih =>
    have hb : (b._id == id) = false := by
      simpa using h b (List.mem_cons_self b bs)
    simp [deleteOneById, hb, ih (fun x hx => h x (List.mem_cons_of_mem b hx))]

/-- C9: when no blog carries the requested id, the PUT and DELETE handlers
still reply 200 (never 404), their returned matched or deleted count is 0,
and the collection is unchanged. -/
theorem C9_put_delete_missing_id (blogs : List Blog) (id : Nat)
    (u : BlogUpdate) (h : ∀ b ∈ blogs, b._id ≠ id) :
    (putBlogHandler blogs id u).status = 200
    ∧ (deleteBlogHandler blogs id).status = 200
    ∧ putBlogHandler blogs id u = ⟨200, 0, blogs⟩
    ∧ deleteBlogHandler blogs id = ⟨200, 0, blogs⟩ := by
  refine ⟨rfl, rfl, ?_, ?_⟩
  · simp [putBlogHandler, updateOneById_not_found id u blogs h]
  · simp [deleteBlogHandler, deleteOneById_not_found id blogs h]

/-- Witness for C9 at concrete inputs: updating or deleting an absent id
over a one-blog collection replies 200 with count 0 and no change. -/
theorem C9_put_delete_missing_id_witness :
    (putBlogHandler [⟨1, "t", "c", 0, none⟩] 2 ⟨none, none, none, none⟩).status
        = 200
    ∧ (deleteBlogHandler [⟨1, "t", "c", 0, none⟩] 2).status = 200
    ∧ putBlogHandler [⟨1, "t", "c", 0, none⟩] 2 ⟨none, none, none, none⟩
        = ⟨200, 0, [⟨1, "t", "c", 0, none⟩]⟩
    ∧ deleteBlogHandler [⟨1, "t", "c", 0, none⟩] 2
        = ⟨200, 0, [⟨1, "t", "c", 0, none⟩]⟩ :=
  C9_put_delete_missing_id [⟨1, "t", "c", 0, none⟩] 2 ⟨none, none, none, none⟩
    (by decide)

/-- C10: when no wishlist item matches the filter, the wishlist search
handler replies 200 with the fixed message object rather than an empty
array; a nonempty result is replied as the array of items, and the two
response shapes are distinct. -/
theorem C10_wishlist_search_empty_shape (wl : List WishItem)
    (userId : String) (category query : Option String) :
    (wl.filter (wishItemMatches userId (buildSearchFilter category query))
        = [] →
      wishlistSearchHandler wl userId category query
        = (200, WishlistSearchBody.message "No matching items found."))
    ∧ (∀ l, wl.filter (wishItemMatches userId (buildSearchFilter category query))
        = l → l ≠ [] →
      wishlistSearchHandler wl userId category query
        = (200, WishlistSearchBody.items l))
    ∧ (∀ l m, WishlistSearchBody.items l ≠ WishlistSearchBody.message m) := by
  refine ⟨?_, ?_, fun l m hlm => by cases hlm⟩
  · intro hempty
    simp [wishlistSearchHandler, hempty]
  · rintro l rfl hne
    simp [wishlistSearchHandler, List.isEmpty_iff, hne]

/-- Witness for C10 at concrete inputs: an empty collection yields the
message object, a one-item collection yields the one-item array, and the
two shapes differ. -/
theorem C10_wishlist_search_empty_shape_witness :
    wishlistSearchHandler [] "u" none none
        = (200, WishlistSearchBody.message "No matching items found.")
    ∧ wishlistSearchHandler [⟨1, "u", "b", "c", "t"⟩] "u" none none
        = (200, WishlistSearchBody.items [⟨1, "u", "b", "c", "t"⟩])
    ∧ WishlistSearchBody.items [] ≠ WishlistSearchBody.message "m" :=
  have h := C10_wishlist_search_empty_shape [⟨1, "u", "b", "c", "t"⟩] "u" none none
  ⟨(C10_wishlist_search_empty_shape [] "u" none none).1 rfl,
   h.2.1 [⟨1, "u", "b", "c", "t"⟩] rfl (by decide),
   h.2.2 [] "m"⟩

end MindMosaic
